import Mathlib

/-!
Shallow embedding of the lightmap slot allocator, the per-entity lightmap
table extraction pass, the mesh batch-key extraction functions, and the
core-3d pass nodes of this repository, together with proofs about them.

Machine integers (`u32` bitmasks, indices) are modelled as `Nat` with
explicit `% 2^32` where wrap-around matters.  Hash maps / hash sets are
modelled as association lists, and `FixedBitSet` as a `Nat` bitmask.
-/

namespace Bevy

/-! ## Bit utilities

`ctzAux fuel m` counts the trailing zero bits of `m`, up to `fuel`
iterations.  `trailingZeros32` mirrors Rust's `u32::trailing_zeros`
(which returns 32 on input 0). -/

def ctzAux : Nat → Nat → Nat
  | 0, _ => 0
  | fuel + 1, m => if m % 2 = 1 then 0 else ctzAux fuel (m / 2) + 1

def u32Size : Nat := 2 ^ 32

/-- Rust `u32::trailing_zeros`: the index of the lowest set bit, 32 if none. -/
def trailingZeros32 (m : Nat) : Nat := ctzAux 32 m

/-! `FixedBitSet` (external crate) modelled as a `Nat` bitmask. -/

/-- `FixedBitSet::minimum`: the smallest contained index, if any. -/
def fbsMinimum (s : Nat) : Option Nat := if s = 0 then none else some (ctzAux s s)

/-- `FixedBitSet::grow_and_insert`. -/
def fbsInsert (s i : Nat) : Nat := s ||| (1 <<< i)

/-- `FixedBitSet::remove`: clear bit `i` (written via xor on the set bit, which
agrees with clearing since the bit is tested first). -/
def fbsRemove (s i : Nat) : Nat := if s.testBit i then s ^^^ (1 <<< i) else s

/-! ## Lightmap data model (`bevy_pbr/src/lightmap/mod.rs` and
`bevy_render/src/mesh/lightmap.rs`)

`GpuImage` is an opaque GPU handle; we model it by an identifier.
Slab/slot index newtypes (`NonMaxU32`/`NonMaxU16`) are modelled as plain
`Nat`; the non-max sentinel is never reached by the code under study. -/

structure GpuImage where
  id : Nat
deriving DecidableEq

structure AllocatedLightmap where
  gpu_image : GpuImage
deriving DecidableEq

structure LightmapSlab where
  lightmaps : List AllocatedLightmap
  free_slots_bitmask : Nat
deriving DecidableEq

instance : Inhabited LightmapSlab := ⟨⟨[], 0⟩⟩

def LIGHTMAPS_PER_SLAB : Nat := 4

def LightmapSlab.new (fallback_d2 : GpuImage) (bindless_supported : Bool) : LightmapSlab :=
  let count := if bindless_supported then LIGHTMAPS_PER_SLAB else 1
  { lightmaps := List.replicate count { gpu_image := fallback_d2 },
    free_slots_bitmask := (1 <<< count) - 1 }

def LightmapSlab.is_full (s : LightmapSlab) : Bool := s.free_slots_bitmask == 0

/-- `LightmapSlab::allocate`.  `image_id` is accepted but unused in the live
code (the assignment to `lightmaps[index].asset_id` is commented out in the
source).  The `1 << index` shift is a u32 shift, hence the `% u32Size`; on a
full slab `index` is 32 and the Rust shift overflows (see claim C10). -/
def LightmapSlab.allocate (s : LightmapSlab) (image_id : Nat) : LightmapSlab × Nat :=
  let index := trailingZeros32 s.free_slots_bitmask
  ({ s with free_slots_bitmask :=
      s.free_slots_bitmask &&& (((1 <<< index) % u32Size) ^^^ (u32Size - 1)) },
   index)

def LightmapSlab.insert (s : LightmapSlab) (index : Nat) (gpu_image : GpuImage) :
    LightmapSlab :=
  { s with lightmaps := s.lightmaps.set index { gpu_image := gpu_image } }

def LightmapSlab.remove (s : LightmapSlab) (fallback_d2 : GpuImage) (index : Nat) :
    LightmapSlab :=
  { lightmaps := s.lightmaps.set index { gpu_image := fallback_d2 },
    free_slots_bitmask := s.free_slots_bitmask ||| ((1 <<< index) % u32Size) }

/-- `Rect` has `f32` coordinates in the source; no claim computes with them, so
they are modelled as integers. -/
structure Rect where
  min_x : Int
  min_y : Int
  max_x : Int
  max_y : Int
deriving DecidableEq

/-- The `Lightmap` component: `image` is the asset id of its `Handle<Image>`. -/
structure Lightmap where
  image : Nat
  uv_rect : Rect
  bicubic_sampling : Bool
deriving DecidableEq

structure RenderLightmap where
  uv_rect : Rect
  slab_index : Nat
  slot_index : Nat
  bicubic_sampling : Bool
deriving DecidableEq

def RenderLightmap.new (uv_rect : Rect) (slab_index slot_index : Nat)
    (bicubic_sampling : Bool) : RenderLightmap :=
  { uv_rect := uv_rect, slab_index := slab_index, slot_index := slot_index,
    bicubic_sampling := bicubic_sampling }

structure AllocatedLightmapUnloaded where
  asset_id : Nat
deriving DecidableEq

structure LightmapSlabUnloaded where
  lightmaps : List AllocatedLightmapUnloaded
  free_slots_bitmask : Nat
deriving DecidableEq

/-- `RenderLightmapsU` (`bevy_render/src/mesh/lightmap.rs`): the hash map
`render_lightmaps` and hash set `pending_lightmaps` are association lists, and
the `FixedBitSet` `free_slabs` is a `Nat` bitmask. -/
structure RenderLightmapsU where
  render_lightmaps : List (Nat × RenderLightmap)
  slabs : List LightmapSlabUnloaded
  free_slabs : Nat
  pending_lightmaps : List (Nat × Nat)
  bindless_supported : Bool
deriving DecidableEq

structure RenderLightmapsL where
  slabs : List LightmapSlab
deriving DecidableEq

/-! Association-list helpers standing in for `HashMap` / `HashSet`. -/

def assocLookup {α : Type} (m : List (Nat × α)) (k : Nat) : Option α :=
  (m.find? (fun e => e.1 == k)).map (fun e => e.2)

def mapContainsKey {α : Type} (m : List (Nat × α)) (k : Nat) : Bool :=
  m.any (fun e => e.1 == k)

def mapInsert {α : Type} (m : List (Nat × α)) (k : Nat) (v : α) : List (Nat × α) :=
  (k, v) :: m.filter (fun e => e.1 != k)

def mapRemove {α : Type} (m : List (Nat × α)) (k : Nat) :
    Option α × List (Nat × α) :=
  match m.find? (fun e => e.1 == k) with
  | none => (none, m)
  | some e => (some e.2, m.filter (fun e2 => e2.1 != k))

def pendingInsert (p : List (Nat × Nat)) (a : Nat × Nat) : List (Nat × Nat) :=
  if p.contains a then p else a :: p

def pendingErase (p : List (Nat × Nat)) (a : Nat × Nat) : List (Nat × Nat) :=
  p.filter (fun b => b != a)

/-! ## The slot allocator (`impl RenderLightmapsL`) -/

/-- `RenderLightmapsL::create_slab`. -/
def RenderLightmapsL.create_slab (l : RenderLightmapsL) (other : RenderLightmapsU)
    (fallback_d2 : GpuImage) : RenderLightmapsL × RenderLightmapsU × Nat :=
  let slab_index := l.slabs.length
  let other := { other with free_slabs := fbsInsert other.free_slabs slab_index }
  let l := { l with slabs :=
      l.slabs ++ [LightmapSlab.new fallback_d2 other.bindless_supported] }
  (l, other, slab_index)

/-- `RenderLightmapsL::allocate`.  Rust indexes `self.slabs[slab_index]`
(panicking when out of range); `getD` with a default is only ever reached
in range under the states considered by the claims. -/
def RenderLightmapsL.allocate (l : RenderLightmapsL) (other : RenderLightmapsU)
    (fallback_d2 : GpuImage) (image_id : Nat) :
    RenderLightmapsL × RenderLightmapsU × Nat × Nat :=
  let st :=
    match fbsMinimum other.free_slabs with
    | none => l.create_slab other fallback_d2
    | some slab_index => (l, other, slab_index)
  let l := st.1
  let other := st.2.1
  let slab_index := st.2.2
  let r := (l.slabs.getD slab_index default).allocate image_id
  let slab := r.1
  let slot_index := r.2
  let l := { l with slabs := l.slabs.set slab_index slab }
  let other :=
    if slab.is_full then
      { other with free_slabs := fbsRemove other.free_slabs slab_index }
    else other
  (l, other, slab_index, slot_index)

/-- `RenderLightmapsL::remove`.  Faithful to the source: the bit inserted into
`free_slabs` is `slot_index`, not `slab_index` (line 376 of
`bevy_pbr/src/lightmap/mod.rs`). -/
def RenderLightmapsL.remove (l : RenderLightmapsL) (other : RenderLightmapsU)
    (fallback_d2 : GpuImage) (slab_index slot_index : Nat) :
    RenderLightmapsL × RenderLightmapsU :=
  let slab := (l.slabs.getD slab_index default).remove fallback_d2 slot_index
  let l := { l with slabs := l.slabs.set slab_index slab }
  let other :=
    if !slab.is_full then
      { other with free_slabs := fbsInsert other.free_slabs slot_index }
    else other
  (l, other)

/-! ## The extraction pass (`extract_lightmaps`)

The pass is a fold over the changed-entities query, then a fold over the
removed-entities list, then the `pending_lightmaps.retain` call.  A changed
entity is a triple `(entity, view_visibility, lightmap)`; the `images`
resource is only consulted by code that is commented out in the source. -/

def extractChangedStep (fallback_d2 : GpuImage)
    (st : RenderLightmapsU × RenderLightmapsL) (c : Nat × Bool × Lightmap) :
    RenderLightmapsU × RenderLightmapsL :=
  let u := st.1
  let l := st.2
  let entity := c.1
  let view_visibility := c.2.1
  let lightmap := c.2.2
  if mapContainsKey u.render_lightmaps entity then (u, l)
  else if !view_visibility then (u, l)
  else
    let r := l.allocate u fallback_d2 lightmap.image
    let l := r.1
    let u := r.2.1
    let slab_index := r.2.2.1
    let slot_index := r.2.2.2
    let u := { u with
      render_lightmaps := mapInsert u.render_lightmaps entity
        (RenderLightmap.new lightmap.uv_rect slab_index slot_index
          lightmap.bicubic_sampling),
      pending_lightmaps := pendingInsert u.pending_lightmaps (slab_index, slot_index) }
    (u, l)

/-- One iteration of the removed-entities loop.  The source's call releasing
the slot back to the allocator (`render_lightmaps_l.remove(...)`, line 206)
is commented out there, so no release happens here either. -/
def extractRemovedStep (changed : List (Nat × Bool × Lightmap))
    (st : RenderLightmapsU × RenderLightmapsL) (entity : Nat) :
    RenderLightmapsU × RenderLightmapsL :=
  let u := st.1
  let l := st.2
  if changed.any (fun c => c.1 == entity) then (u, l)
  else
    match mapRemove u.render_lightmaps entity with
    | (none, _) => (u, l)
    | (some rl, m) =>
        ({ u with
            render_lightmaps := m,
            pending_lightmaps :=
              pendingErase u.pending_lightmaps (rl.slab_index, rl.slot_index) },
         l)

/-- `extract_lightmaps`.  The final `retain` closure returns `false`
unconditionally in the source (its reload logic is commented out), so the
pending set is emptied every pass. -/
def extract_lightmaps (u : RenderLightmapsU) (l : RenderLightmapsL)
    (changed : List (Nat × Bool × Lightmap)) (removed : List Nat)
    (images : Nat → Option GpuImage) (fallback_d2 : GpuImage) :
    RenderLightmapsU × RenderLightmapsL :=
  let st := changed.foldl (extractChangedStep fallback_d2) (u, l)
  let st := removed.foldl (extractRemovedStep changed) st
  ({ st.1 with pending_lightmaps := st.1.pending_lightmaps.filter (fun _ => false) },
   st.2)

/-! ## Batch-key extraction (`bevy_render/src/batching/mesh_batch.rs`)

The mesh-instance types, `MeshUniform`, and `should_batch` live outside the
provided sources; they are modelled from the spec. -/

/-- Modelled from the spec: the material binding index carries the bind group
(`group`, the batch-key component) and the slot within it (`slot`, written
into the per-instance uniform). -/
structure MaterialBindGroupIndex where
  group : Nat
  slot : Nat
deriving DecidableEq

/-- Modelled from the spec: a CPU-building render mesh instance.  `should_batch`
is the opt-in flag the spec describes ("an instance opts out of batching if any
per-instance uniform varies per-draw"); `transforms` is an opaque payload. -/
structure RenderMeshInstanceCpu where
  mesh_asset_id : Nat
  material_bindings_index : MaterialBindGroupIndex
  should_batch : Bool
  transforms : Nat
  tag : Nat
deriving DecidableEq

/-- Modelled from the spec: a GPU-building render mesh instance, which carries
an index into the rolling uniform buffer instead of uniform contents. -/
structure RenderMeshInstanceGpu where
  mesh_asset_id : Nat
  material_bindings_index : MaterialBindGroupIndex
  should_batch : Bool
  current_uniform_index : Nat
deriving DecidableEq

/-- Modelled from the spec: `RenderMeshInstances` is either CPU-building or
GPU-building, each holding an entity-keyed table of instances. -/
inductive RenderMeshInstances where
  | cpuBuilding (instances : List (Nat × RenderMeshInstanceCpu))
  | gpuBuilding (instances : List (Nat × RenderMeshInstanceGpu))

/-- Modelled from the spec: the per-instance uniform record (transforms,
first-vertex offset, material slot, packed resource-slot + sub-rect, skin
index, tag). -/
structure MeshUniform where
  transforms : Nat
  first_vertex_index : Nat
  material_slot : Nat
  lightmap_slot_and_uv_rect : Option (Nat × Rect)
  skin_index : Nat
  tag : Option Nat
deriving DecidableEq

def MeshUniform.new (transforms first_vertex_index material_slot : Nat)
    (maybe_lightmap : Option (Nat × Rect)) (skin_index : Nat) (tag : Option Nat) :
    MeshUniform :=
  { transforms := transforms, first_vertex_index := first_vertex_index,
    material_slot := material_slot, lightmap_slot_and_uv_rect := maybe_lightmap,
    skin_index := skin_index, tag := tag }

/-- `GetBatchData::CompareData`: material bind-group index, mesh asset id,
optional lightmap slab index. -/
abbrev CompareData := Nat × Nat × Option Nat

/-- `MeshPipeline::get_batch_data` (CPU building path).  The second component
of the result collects the diagnostics emitted via `error!`. -/
def get_batch_data (mesh_instances : RenderMeshInstances)
    (lightmaps : List (Nat × RenderLightmap))
    (mesh_allocator : Nat → Option Nat) (skin_uniforms : Nat → Nat)
    (main_entity : Nat) :
    Option (MeshUniform × Option CompareData) × List String :=
  match mesh_instances with
  | .gpuBuilding _ =>
      (none,
       ["`get_batch_data` should never be called in GPU mesh uniform building mode"])
  | .cpuBuilding instances =>
    match assocLookup instances main_entity with
    | none => (none, [])
    | some mesh_instance =>
      let first_vertex_index := (mesh_allocator mesh_instance.mesh_asset_id).getD 0
      let maybe_lightmap := assocLookup lightmaps main_entity
      let current_skin_index := skin_uniforms main_entity
      let material_bind_group_index := mesh_instance.material_bindings_index
      (some
        (MeshUniform.new mesh_instance.transforms first_vertex_index
          material_bind_group_index.slot
          (maybe_lightmap.map (fun lm => (lm.slot_index, lm.uv_rect)))
          current_skin_index (some mesh_instance.tag),
         if mesh_instance.should_batch then
           some (material_bind_group_index.group, mesh_instance.mesh_asset_id,
             maybe_lightmap.map (fun lm => lm.slab_index))
         else none),
       [])

/-- `MeshPipeline::get_index_and_compare_data` (GPU building path). -/
def get_index_and_compare_data (mesh_instances : RenderMeshInstances)
    (lightmaps : List (Nat × RenderLightmap)) (main_entity : Nat) :
    Option (Nat × Option CompareData) × List String :=
  match mesh_instances with
  | .cpuBuilding _ =>
      (none,
       ["`get_index_and_compare_data` should never be called in CPU mesh uniform building mode"])
  | .gpuBuilding instances =>
    match assocLookup instances main_entity with
    | none => (none, [])
    | some mesh_instance =>
      let maybe_lightmap := assocLookup lightmaps main_entity
      (some
        (mesh_instance.current_uniform_index,
         if mesh_instance.should_batch then
           some (mesh_instance.material_bindings_index.group,
             mesh_instance.mesh_asset_id,
             maybe_lightmap.map (fun lm => lm.slab_index))
         else none),
       [])

/-! ## Core-3d pass nodes

The phase containers live outside the provided sources; they are modelled
from the spec as item lists exposing emptiness.  A node run is modelled by
the list of GPU commands it records. -/

/-- Modelled from the spec: a sorted render phase (items ordered back to
front). -/
structure SortedRenderPhase where
  items : List Nat
deriving DecidableEq

/-- Modelled from the spec: a binned render phase exposing `is_empty`. -/
structure BinnedRenderPhase where
  items : List Nat
deriving DecidableEq

def BinnedRenderPhase.is_empty (p : BinnedRenderPhase) : Bool := p.items.isEmpty

inductive PassCmd where
  | beginRenderPass (label : String)
  | setCameraViewport
  | renderPhase (label : String) (view_entity : Nat)
  | skyboxDraw
deriving DecidableEq

abbrev NodeRunError := Unit

/-- `MainTransparentPass3dNode::run`.  `transparent_phases` is the
`ViewSortedRenderPhases<Transparent3d>` resource (absent from the world when
`none`), keyed by view entity. -/
def MainTransparentPass3dNode.run (view_entity : Nat)
    (transparent_phases : Option (List (Nat × SortedRenderPhase)))
    (has_viewport : Bool) : Except NodeRunError (List PassCmd) :=
  match transparent_phases with
  | none => .ok []
  | some phases =>
    match assocLookup phases view_entity with
    | none => .ok []
    | some transparent_phase =>
      if !transparent_phase.items.isEmpty then
        .ok ([.beginRenderPass "main_transparent_pass_3d"]
          ++ (if has_viewport then [.setCameraViewport] else [])
          ++ [.renderPhase "main_transparent_pass_3d" view_entity])
      else
        .ok []

/-- `MainOpaquePass3dNode::run`: the render pass is always begun; the opaque
and alpha-mask phases are rendered only behind their `is_empty` checks; the
skybox draw happens when its pipeline and bind group are available. -/
def MainOpaquePass3dNode.run (view_entity : Nat)
    (opaque_phase alpha_mask_phase : BinnedRenderPhase)
    (skybox_available : Bool) (has_viewport : Bool) :
    Except NodeRunError (List PassCmd) :=
  .ok ([.beginRenderPass "main_opaque_pass_3d"]
    ++ (if has_viewport then [.setCameraViewport] else [])
    ++ (if !opaque_phase.is_empty then
          [.renderPhase "opaque_main_pass_3d" view_entity] else [])
    ++ (if !alpha_mask_phase.is_empty then
          [.renderPhase "alpha_mask_main_pass_3d" view_entity] else [])
    ++ (if skybox_available then [.skyboxDraw] else []))

/-! ## Concrete states used in scenarios and witnesses -/

def emptyU (bindless : Bool) : RenderLightmapsU :=
  { render_lightmaps := [], slabs := [], free_slabs := 0,
    pending_lightmaps := [], bindless_supported := bindless }

def emptyL : RenderLightmapsL := { slabs := [] }

def fallbackImg : GpuImage := { id := 0 }

/-- Run `n` consecutive allocations, returning the final state and the list of
returned `(slab_index, slot_index)` addresses in order. -/
def allocSeq : Nat → RenderLightmapsL × RenderLightmapsU →
    (RenderLightmapsL × RenderLightmapsU) × List (Nat × Nat)
  | 0, st => (st, [])
  | n + 1, st =>
    let r := st.1.allocate st.2 fallbackImg 0
    let rest := allocSeq n (r.1, r.2.1)
    (rest.1, r.2.2 :: rest.2)

def rect01 : Rect := { min_x := 0, min_y := 0, max_x := 1, max_y := 1 }

def sampleLightmap : Lightmap :=
  { image := 9, uv_rect := rect01, bicubic_sampling := false }

/-- A slab with capacity 4 whose slot 0 is occupied (bitmask 0b1110). -/
def slab0Occupied : LightmapSlab :=
  { lightmaps := List.replicate 4 { gpu_image := fallbackImg },
    free_slots_bitmask := 14 }

def instCpu0 : RenderMeshInstanceCpu :=
  { mesh_asset_id := 2, material_bindings_index := { group := 1, slot := 0 },
    should_batch := true, transforms := 0, tag := 0 }

def instGpu0 : RenderMeshInstanceGpu :=
  { mesh_asset_id := 2, material_bindings_index := { group := 1, slot := 0 },
    should_batch := true, current_uniform_index := 3 }

/-! ## Lemmas about the bit utilities -/

theorem ctzAux_least : ∀ (fuel m j : Nat), j < ctzAux fuel m → Nat.testBit m j = false := by
  intro fuel
  induction fuel with
  | zero => intro m j h; simp [ctzAux] at h
  | succ n ih =>
    intro m j h
    by_cases hm : m % 2 = 1
    · simp [ctzAux, hm] at h
    · simp [ctzAux, hm] at h
      cases j with
      | zero => simp [Nat.testBit_zero, hm]
      | succ k =>
        rw [Nat.testBit_add_one]
        exact ih (m / 2) k (by omega)

theorem ctzAux_testBit : ∀ (fuel m : Nat), m ≠ 0 → m < 2 ^ fuel →
    Nat.testBit m (ctzAux fuel m) = true := by
  intro fuel
  induction fuel with
  | zero => intro m h0 hlt; simp at hlt; omega
  | succ n ih =>
    intro m h0 hlt
    by_cases hm : m % 2 = 1
    · simp [ctzAux, hm]
    · have h2 : m / 2 ≠ 0 := by omega
      have hp : (2 : Nat) ^ (n + 1) = 2 ^ n * 2 := by rw [pow_succ]
      have hlt2 : m / 2 < 2 ^ n := by omega
      simp only [ctzAux, hm, if_false, Nat.testBit_add_one]
      exact ih (m / 2) h2 hlt2

theorem ctzAux_lt : ∀ (fuel m : Nat), m ≠ 0 → m < 2 ^ fuel → ctzAux fuel m < fuel := by
  intro fuel
  induction fuel with
  | zero => intro m h0 hlt; simp at hlt; omega
  | succ n ih =>
    intro m h0 hlt
    by_cases hm : m % 2 = 1
    · simp [ctzAux, hm]
    · have h2 : m / 2 ≠ 0 := by omega
      have hp : (2 : Nat) ^ (n + 1) = 2 ^ n * 2 := by rw [pow_succ]
      have hlt2 : m / 2 < 2 ^ n := by omega
      simp only [ctzAux, hm, if_false]
      have := ih (m / 2) h2 hlt2
      omega

theorem trailingZeros32_testBit {m : Nat} (h0 : m ≠ 0) (hlt : m < u32Size) :
    Nat.testBit m (trailingZeros32 m) = true :=
  ctzAux_testBit 32 m h0 hlt

theorem trailingZeros32_lt {m : Nat} (h0 : m ≠ 0) (hlt : m < u32Size) :
    trailingZeros32 m < 32 :=
  ctzAux_lt 32 m h0 hlt

theorem trailingZeros32_least {m j : Nat} (h : j < trailingZeros32 m) :
    Nat.testBit m j = false :=
  ctzAux_least 32 m j h

theorem fbsMinimum_spec {s : Nat} (h0 : s ≠ 0) :
    ∃ i, fbsMinimum s = some i ∧ Nat.testBit s i = true ∧
      ∀ j, j < i → Nat.testBit s j = false := by
  refine ⟨ctzAux s s, by simp [fbsMinimum, h0], ?_, ?_⟩
  · exact ctzAux_testBit s s h0 (Nat.lt_two_pow s)
  · intro j hj
    exact ctzAux_least s s j hj

theorem fbsRemove_testBit (s i j : Nat) :
    Nat.testBit (fbsRemove s i) j = (Nat.testBit s j && !(decide (j = i))) := by
  unfold fbsRemove
  by_cases hs : Nat.testBit s i
  · simp only [hs, if_true, Nat.testBit_xor, Nat.shiftLeft_eq, one_mul,
      Nat.testBit_two_pow]
    by_cases hji : j = i
    · subst hji; simp [hs]
    · simp [hji, Ne.symm hji]
  · simp only [Bool.not_eq_true] at hs
    simp only [hs, if_false]
    by_cases hji : j = i
    · subst hji; simp [hs]
    · simp [hji]

theorem fbsInsert_testBit (s i j : Nat) :
    Nat.testBit (fbsInsert s i) j = (Nat.testBit s j || decide (j = i)) := by
  unfold fbsInsert
  simp only [Nat.testBit_or, Nat.shiftLeft_eq, one_mul, Nat.testBit_two_pow]
  by_cases hji : j = i
  · subst hji; simp
  · simp [hji, Ne.symm hji]

/-- Clearing bit `t` the way `LightmapSlab::allocate` does it: AND with the
u32 complement of `1 << t`. -/
theorem clearBit_testBit {m : Nat} (t : Nat) (hm : m < u32Size) (ht : t < 32) :
    ∀ j, Nat.testBit (m &&& (((1 <<< t) % u32Size) ^^^ (u32Size - 1))) j =
      (Nat.testBit m j && !(decide (j = t))) := by
  intro j
  have hpow : (1 <<< t) % u32Size = 2 ^ t := by
    rw [Nat.shiftLeft_eq, one_mul]
    exact Nat.mod_eq_of_lt (Nat.pow_lt_pow_right (by omega) ht)
  rw [hpow]
  have hu : u32Size - 1 = 2 ^ 32 - 1 := rfl
  rw [hu]
  simp only [Nat.testBit_and, Nat.testBit_xor, Nat.testBit_two_pow,
    Nat.testBit_two_pow_sub_one]
  by_cases hj32 : j < 32
  · by_cases hjt : j = t
    · subst hjt; simp [hj32]
    · simp [hjt, Ne.symm hjt, hj32]
  · have : Nat.testBit m j = false := by
      apply Nat.testBit_lt_two_pow
      calc m < u32Size := hm
        _ = 2 ^ 32 := rfl
        _ ≤ 2 ^ j := Nat.pow_le_pow_right (by omega) (by omega)
    simp [this]

/-! ## Claim theorems: the bugged release path (C2, C3, C4, C5) -/

/-- C2: the free-slab invariant fails on the code.  After four allocations
(filling slab 0 with capacity 4) and a release of address (0, 2) via
`RenderLightmapsL::remove`, slab 0 has a free slot (bitmask 4 ≠ 0) but its bit
is absent from `free_slabs`; the release inserted the slot index 2 into
`free_slabs` instead of the slab index 0. -/
theorem c2_free_slab_invariant_fails :
    (let st := (allocSeq 4 (emptyL, emptyU true)).1
     let r := st.1.remove st.2 fallbackImg 0 2
     (r.1.slabs.getD 0 default).free_slots_bitmask = 4 ∧
     r.2.free_slabs = 4 ∧
     ¬(Nat.testBit r.2.free_slabs 0 = true ↔
        (r.1.slabs.getD 0 default).free_slots_bitmask ≠ 0)) := by
  decide

/-- C3: the release-then-allocate round trip fails on the code.  With slab 0
(capacity 4) full and slab 1 holding one allocation, releasing (0, 2) and
allocating again returns (1, 1), not the freed slot (0, 2): the release put
the slot index 2 into `free_slabs`, so the allocator still believes slab 0 is
full and serves slab 1. -/
theorem c3_release_then_allocate_fails :
    (let st := (allocSeq 5 (emptyL, emptyU true)).1
     let r := st.1.remove st.2 fallbackImg 0 2
     (r.1.allocate r.2 fallbackImg 0).2.2) = (1, 1) ∧
    ((1, 1) : Nat × Nat) ≠ (0, 2) := by
  decide

/-- C4: removing an entity does not release its slot.  From a state where
entity 7 is bound to address (0, 0) (slab 0 bitmask 0b1110), an extract pass
whose removed list is `[7]` drops the table entry but leaves the slab bitmask
and `free_slabs` untouched: the release call in the source is commented out,
so the remaining state has an allocated slot no table entry refers to. -/
theorem c4_remove_does_not_release_slot :
    (let u0 : RenderLightmapsU :=
      { render_lightmaps := [(7, RenderLightmap.new rect01 0 0 false)],
        slabs := [], free_slabs := 1, pending_lightmaps := [(0, 0)],
        bindless_supported := true }
     let l0 : RenderLightmapsL := { slabs := [slab0Occupied] }
     let r := extract_lightmaps u0 l0 [] [7] (fun _ => none) fallbackImg
     mapContainsKey r.1.render_lightmaps 7 = false ∧
     (r.2.slabs.getD 0 default).free_slots_bitmask = 14 ∧
     r.1.free_slabs = 1) := by
  decide

/-- C5: a pending lightmap whose asset is not yet loaded does not stay
pending.  With `pending_lightmaps = {(0, 0)}` and no image loaded, an extract
pass empties the pending set: the `retain` closure in the source returns
`false` unconditionally, so nothing is ever retried. -/
theorem c5_pending_entry_not_retained :
    (let u0 : RenderLightmapsU :=
      { render_lightmaps := [], slabs := [], free_slabs := 1,
        pending_lightmaps := [(0, 0)], bindless_supported := true }
     let l0 : RenderLightmapsL := { slabs := [slab0Occupied] }
     (extract_lightmaps u0 l0 [] [] (fun _ => none) fallbackImg).1.pending_lightmaps = []) ∧
    ([((0 : Nat), (0 : Nat))] : List (Nat × Nat)) ≠ [] := by
  decide

/-! ## Claim theorems: batch-key extraction (C6, C8) -/

/-- C6: `get_batch_data` (CPU mode) and `get_index_and_compare_data` (GPU
mode) return comparison data exactly when the instance's `should_batch` is
true, and that data is the triple (material bind-group index, mesh asset id,
optional lightmap slab index); two keys are equal exactly when all three
components agree. -/
theorem c6_compare_data_iff_should_batch
    (lightmaps : List (Nat × RenderLightmap))
    (mesh_allocator : Nat → Option Nat) (skin : Nat → Nat) (e : Nat) :
    (∀ (instances : List (Nat × RenderMeshInstanceCpu)) inst,
      assocLookup instances e = some inst →
      ((get_batch_data (.cpuBuilding instances) lightmaps mesh_allocator skin e).1.map
          (fun p => p.2)) =
        some (if inst.should_batch then
          some (inst.material_bindings_index.group, inst.mesh_asset_id,
            (assocLookup lightmaps e).map (fun lm => lm.slab_index))
        else none)) ∧
    (∀ (instances : List (Nat × RenderMeshInstanceGpu)) inst,
      assocLookup instances e = some inst →
      (get_index_and_compare_data (.gpuBuilding instances) lightmaps e).1 =
        some (inst.current_uniform_index,
          if inst.should_batch then
            some (inst.material_bindings_index.group, inst.mesh_asset_id,
              (assocLookup lightmaps e).map (fun lm => lm.slab_index))
          else none)) ∧
    (∀ a b : CompareData, a = b ↔ (a.1 = b.1 ∧ a.2.1 = b.2.1 ∧ a.2.2 = b.2.2)) := by
  refine ⟨?_, ?_, ?_⟩
  · intro instances inst h
    simp [get_batch_data, h]
  · intro instances inst h
    simp [get_index_and_compare_data, h]
  · intro a b
    obtain ⟨a1, a2, a3⟩ := a
    obtain ⟨b1, b2, b3⟩ := b
    simp [Prod.ext_iff]

theorem c6_compare_data_iff_should_batch_witness :
    assocLookup [(5, instCpu0)] 5 = some instCpu0 ∧
    ((get_batch_data (.cpuBuilding [(5, instCpu0)]) [] (fun _ => none)
        (fun _ => 0) 5).1.map (fun p => p.2)) = some (some (1, 2, none)) := by
  have h := (c6_compare_data_iff_should_batch [] (fun _ => none) (fun _ => 0) 5).1
    [(5, instCpu0)] instCpu0 (by decide)
  exact ⟨by decide, by simpa using h⟩

/-- C8: calling `get_batch_data` in GPU-building mode, or
`get_index_and_compare_data` in CPU-building mode, computes no batch data:
the code path returns `None` after emitting a diagnostic. -/
theorem c8_mode_mismatch_fails_loudly :
    (∀ (instances : List (Nat × RenderMeshInstanceGpu))
       (lightmaps : List (Nat × RenderLightmap))
       (mesh_allocator : Nat → Option Nat) (skin : Nat → Nat) (e : Nat),
      get_batch_data (.gpuBuilding instances) lightmaps mesh_allocator skin e =
        (none,
         ["`get_batch_data` should never be called in GPU mesh uniform building mode"])) ∧
    (∀ (instances : List (Nat × RenderMeshInstanceCpu))
       (lightmaps : List (Nat × RenderLightmap)) (e : Nat),
      get_index_and_compare_data (.cpuBuilding instances) lightmaps e =
        (none,
         ["`get_index_and_compare_data` should never be called in CPU mesh uniform building mode"])) := by
  exact ⟨fun _ _ _ _ _ => rfl, fun _ _ _ => rfl⟩

/-! ## Claim theorems: slab allocation bit arithmetic (C10) -/

/-- C10: on a slab whose `free_slots_bitmask` is non-zero (and whose bits lie
within its capacity), `LightmapSlab::allocate` returns the index of the lowest
set bit — strictly below the capacity, which `LightmapSlab::new` sets to
`LIGHTMAPS_PER_SLAB` in bindless mode and 1 otherwise — and clears exactly
that bit; the returned index is below 32, so the u32 shift `1 << index` does
not overflow (it only would on a full slab, where `trailing_zeros` is 32). -/
theorem c10_slab_allocate_lowest_free_bit (s : LightmapSlab) (image_id : Nat)
    (h0 : s.free_slots_bitmask ≠ 0)
    (hcap : s.free_slots_bitmask < 2 ^ s.lightmaps.length)
    (h32 : s.lightmaps.length ≤ 32) :
    (s.allocate image_id).2 = trailingZeros32 s.free_slots_bitmask ∧
    Nat.testBit s.free_slots_bitmask (s.allocate image_id).2 = true ∧
    (∀ j, j < (s.allocate image_id).2 →
      Nat.testBit s.free_slots_bitmask j = false) ∧
    (s.allocate image_id).2 < s.lightmaps.length ∧
    (s.allocate image_id).2 < 32 ∧
    (1 <<< (s.allocate image_id).2) % u32Size = 1 <<< (s.allocate image_id).2 ∧
    (∀ j, Nat.testBit (s.allocate image_id).1.free_slots_bitmask j =
      (Nat.testBit s.free_slots_bitmask j &&
        !(decide (j = (s.allocate image_id).2)))) ∧
    (∀ (fb : GpuImage) (b : Bool),
      (LightmapSlab.new fb b).lightmaps.length =
        if b then LIGHTMAPS_PER_SLAB else 1) := by
  have hm32 : s.free_slots_bitmask < u32Size := by
    calc s.free_slots_bitmask < 2 ^ s.lightmaps.length := hcap
      _ ≤ 2 ^ 32 := Nat.pow_le_pow_right (by omega) h32
  have ht32 : trailingZeros32 s.free_slots_bitmask < 32 := trailingZeros32_lt h0 hm32
  have htb : Nat.testBit s.free_slots_bitmask (trailingZeros32 s.free_slots_bitmask) = true :=
    trailingZeros32_testBit h0 hm32
  have hteq : (s.allocate image_id).2 = trailingZeros32 s.free_slots_bitmask := rfl
  have htcap : trailingZeros32 s.free_slots_bitmask < s.lightmaps.length := by
    by_contra hge
    have hle : 2 ^ s.lightmaps.length ≤ 2 ^ trailingZeros32 s.free_slots_bitmask :=
      Nat.pow_le_pow_right (by omega) (by omega)
    have := Nat.testBit_implies_ge htb
    omega
  refine ⟨hteq, ?_, ?_, ?_, ?_, ?_, ?_, ?_⟩
  · rw [hteq]; exact htb
  · intro j hj
    rw [hteq] at hj
    exact trailingZeros32_least hj
  · rw [hteq]; exact htcap
  · rw [hteq]; exact ht32
  · rw [hteq, Nat.shiftLeft_eq, one_mul]
    exact Nat.mod_eq_of_lt (Nat.pow_lt_pow_right (by omega) ht32)
  · intro j
    rw [hteq]
    exact clearBit_testBit (trailingZeros32 s.free_slots_bitmask) hm32 ht32 j
  · intro fb b
    cases b <;> simp [LightmapSlab.new, LIGHTMAPS_PER_SLAB]

theorem c10_slab_allocate_lowest_free_bit_witness :
    slab0Occupied.free_slots_bitmask ≠ 0 ∧
    slab0Occupied.free_slots_bitmask < 2 ^ slab0Occupied.lightmaps.length ∧
    slab0Occupied.lightmaps.length ≤ 32 ∧
    (slab0Occupied.allocate 0).2 = trailingZeros32 slab0Occupied.free_slots_bitmask :=
  ⟨by decide, by decide, by decide,
   (c10_slab_allocate_lowest_free_bit slab0Occupied 0 (by decide) (by decide)
     (by decide)).1⟩

/-! ## Claim theorems: pass skipping (C9) -/

/-- C9: the transparent pass node returns success and records no commands when
its phase resource is absent, when its view has no phase entry, or when the
phase's item list is empty; the opaque node renders the opaque and alpha-mask
phases exactly when their `is_empty()` checks are false, so a view with only a
transparent phase gets zero draws from both. -/
theorem c9_pass_skipping (view_entity : Nat) (has_viewport : Bool) :
    (MainTransparentPass3dNode.run view_entity none has_viewport = .ok []) ∧
    (∀ phases, assocLookup phases view_entity = none →
      MainTransparentPass3dNode.run view_entity (some phases) has_viewport = .ok []) ∧
    (∀ phases ph, assocLookup phases view_entity = some ph → ph.items = [] →
      MainTransparentPass3dNode.run view_entity (some phases) has_viewport = .ok []) ∧
    (∀ opaque_phase alpha_mask_phase skybox_available, ∃ cmds,
      MainOpaquePass3dNode.run view_entity opaque_phase alpha_mask_phase
        skybox_available has_viewport = .ok cmds ∧
      (PassCmd.renderPhase "opaque_main_pass_3d" view_entity ∈ cmds ↔
        opaque_phase.is_empty = false) ∧
      (PassCmd.renderPhase "alpha_mask_main_pass_3d" view_entity ∈ cmds ↔
        alpha_mask_phase.is_empty = false) ∧
      (opaque_phase.is_empty = true → alpha_mask_phase.is_empty = true →
        ∀ lbl v, PassCmd.renderPhase lbl v ∉ cmds)) := by
  refine ⟨rfl, ?_, ?_, ?_⟩
  · intro phases h
    simp [MainTransparentPass3dNode.run, h]
  · intro phases ph h hempty
    simp [MainTransparentPass3dNode.run, h, hempty]
  · intro op am sky
    refine ⟨_, rfl, ?_, ?_, ?_⟩
    · cases hop : op.is_empty <;>
        cases ham : am.is_empty <;>
        cases sky <;>
        cases has_viewport <;>
        simp [hop, ham]
    · cases hop : op.is_empty <;>
        cases ham : am.is_empty <;>
        cases sky <;>
        cases has_viewport <;>
        simp [hop, ham]
    · intro hop ham lbl v
      cases sky <;> cases has_viewport <;> simp [hop, ham]

theorem c9_pass_skipping_witness :
    assocLookup ([(3, ({ items := [] } : SortedRenderPhase))]) 3 =
      some { items := [] } ∧
    MainTransparentPass3dNode.run 3
      (some [(3, ({ items := [] } : SortedRenderPhase))]) false = .ok [] :=
  ⟨by decide,
   (c9_pass_skipping 3 false).2.2.1 [(3, { items := [] })] { items := [] }
     (by decide) rfl⟩

/-! ## Claim theorems: table stability (C7) -/

theorem assocLookup_some_contains {α : Type} {m : List (Nat × α)} {k : Nat} {v : α}
    (h : assocLookup m k = some v) : mapContainsKey m k = true := by
  unfold assocLookup at h
  unfold mapContainsKey
  rcases hf : m.find? (fun x => x.1 == k) with _ | p
  · rw [hf] at h; simp at h
  · rw [List.any_eq_true]
    exact ⟨p, List.mem_of_find?_eq_some hf, by simpa using List.find?_some hf⟩

theorem find?_filter_ne {α : Type} (k' e : Nat) (hne : e ≠ k') :
    ∀ (m : List (Nat × α)),
      (m.filter (fun x => x.1 != k')).find? (fun x => x.1 == e) =
        m.find? (fun x => x.1 == e) := by
  intro m
  induction m with
  | nil => rfl
  | cons a l ih =>
    by_cases hak : a.1 = k'
    · have h2 : (a.1 == e) = false := by
        rw [hak]
        simp [Ne.symm hne]
      have hneg : ¬ ((fun (x : Nat × α) => x.1 == e) a = true) := by simp [h2]
      rw [@List.find?_cons_of_neg (Nat × α) (fun x => x.1 == e) a l hneg]
      simp [List.filter_cons, hak, ih]
    · by_cases hae : (a.1 == e) = true
      · simp [List.filter_cons, hak, hae]
      · have hae2 : (a.1 == e) = false := by simpa using hae
        simp [List.filter_cons, hak, hae2, ih]

theorem assocLookup_filter_ne {α : Type} (m : List (Nat × α)) (k' e : Nat)
    (hne : e ≠ k') :
    assocLookup (m.filter (fun x => x.1 != k')) e = assocLookup m e := by
  unfold assocLookup
  rw [find?_filter_ne k' e hne]

theorem assocLookup_mapInsert_ne {α : Type} (m : List (Nat × α)) (k' : Nat)
    (v' : α) (e : Nat) (hne : e ≠ k') :
    assocLookup (mapInsert m k' v') e = assocLookup m e := by
  unfold mapInsert assocLookup
  have h2 : (k' == e) = false := by simp [Ne.symm hne]
  simp [h2, find?_filter_ne k' e hne]

theorem allocate_preserves_render_lightmaps (l : RenderLightmapsL)
    (u : RenderLightmapsU) (fb : GpuImage) (image_id : Nat) :
    (l.allocate u fb image_id).2.1.render_lightmaps = u.render_lightmaps := by
  unfold RenderLightmapsL.allocate RenderLightmapsL.create_slab
  rcases hm : fbsMinimum u.free_slabs with _ | si <;>
    simp only [hm] <;> split <;> rfl

theorem extractChangedStep_preserves (fb : GpuImage)
    (st : RenderLightmapsU × RenderLightmapsL) (c : Nat × Bool × Lightmap)
    {e : Nat} {v : RenderLightmap}
    (h : assocLookup st.1.render_lightmaps e = some v) :
    assocLookup (extractChangedStep fb st c).1.render_lightmaps e = some v := by
  unfold extractChangedStep
  by_cases hc : mapContainsKey st.1.render_lightmaps c.1 = true
  · simpa [hc] using h
  · have hne : e ≠ c.1 := by
      intro hEq
      rw [hEq] at h
      exact hc (assocLookup_some_contains h)
    by_cases hv : c.2.1 = true
    · simpa [hc, hv, assocLookup_mapInsert_ne _ _ _ _ hne,
        allocate_preserves_render_lightmaps] using h
    · simpa [hc, hv] using h

theorem extractChangedFold_preserves (fb : GpuImage)
    (cs : List (Nat × Bool × Lightmap)) :
    ∀ (st : RenderLightmapsU × RenderLightmapsL) {e : Nat} {v : RenderLightmap},
      assocLookup st.1.render_lightmaps e = some v →
      assocLookup (cs.foldl (extractChangedStep fb) st).1.render_lightmaps e = some v := by
  induction cs with
  | nil => intro st e v h; exact h
  | cons c cs ih =>
    intro st e v h
    exact ih _ (extractChangedStep_preserves fb st c h)

theorem extractRemovedStep_preserves (changed : List (Nat × Bool × Lightmap))
    (st : RenderLightmapsU × RenderLightmapsL) (entity : Nat)
    {e : Nat} {v : RenderLightmap}
    (hch : changed.any (fun c => c.1 == e) = true)
    (h : assocLookup st.1.render_lightmaps e = some v) :
    assocLookup (extractRemovedStep changed st entity).1.render_lightmaps e = some v := by
  unfold extractRemovedStep
  by_cases hc : changed.any (fun c => c.1 == entity) = true
  · simpa [hc] using h
  · have hne : e ≠ entity := by
      intro hEq
      rw [hEq] at hch
      exact hc hch
    unfold mapRemove
    rcases hf : st.1.render_lightmaps.find? (fun x => x.1 == entity) with _ | p
    · simpa [hc, hf] using h
    · simp only [hc, Bool.false_eq_true, if_false, hf]
      simpa [assocLookup_filter_ne _ entity e hne] using h

theorem extractRemovedFold_preserves (changed : List (Nat × Bool × Lightmap))
    (rs : List Nat) :
    ∀ (st : RenderLightmapsU × RenderLightmapsL) {e : Nat} {v : RenderLightmap},
      changed.any (fun c => c.1 == e) = true →
      assocLookup st.1.render_lightmaps e = some v →
      assocLookup (rs.foldl (extractRemovedStep changed) st).1.render_lightmaps e = some v := by
  induction rs with
  | nil => intro st e v _ h; exact h
  | cons r rs ih =>
    intro st e v hch h
    exact ih _ hch (extractRemovedStep_preserves changed st r hch h)

/-- C7: an entity that already has an entry in the `render_lightmaps` table
keeps that exact entry (same slab and slot indices) across an extract pass
that processes it again, whatever the new descriptor content; the step
processing it is a complete no-op (no new allocation). -/
theorem c7_table_stability (u : RenderLightmapsU) (l : RenderLightmapsL)
    (changed : List (Nat × Bool × Lightmap)) (removed : List Nat)
    (images : Nat → Option GpuImage) (fb : GpuImage)
    (e : Nat) (v : RenderLightmap)
    (hmem : assocLookup u.render_lightmaps e = some v)
    (hch : changed.any (fun c => c.1 == e) = true) :
    assocLookup
      (extract_lightmaps u l changed removed images fb).1.render_lightmaps e
      = some v ∧
    (∀ (vis : Bool) (lm : Lightmap),
      extractChangedStep fb (u, l) (e, vis, lm) = (u, l)) := by
  constructor
  · unfold extract_lightmaps
    have h1 := extractChangedFold_preserves fb changed (u, l) hmem
    have h2 := extractRemovedFold_preserves changed removed _ hch h1
    simpa using h2
  · intro vis lm
    have hc : mapContainsKey u.render_lightmaps e = true :=
      assocLookup_some_contains hmem
    simp [extractChangedStep, hc]

theorem c7_table_stability_witness :
    (let u0 : RenderLightmapsU :=
      { render_lightmaps := [(7, RenderLightmap.new rect01 0 0 false)],
        slabs := [], free_slabs := 0, pending_lightmaps := [],
        bindless_supported := true }
     assocLookup u0.render_lightmaps 7 = some (RenderLightmap.new rect01 0 0 false) ∧
     ([(7, true, sampleLightmap)].any (fun c => c.1 == 7)) = true ∧
     assocLookup
       (extract_lightmaps u0 emptyL [(7, true, sampleLightmap)] [7]
         (fun _ => none) fallbackImg).1.render_lightmaps 7
       = some (RenderLightmap.new rect01 0 0 false)) :=
  ⟨by decide, by decide,
   (c7_table_stability _ emptyL [(7, true, sampleLightmap)] [7] (fun _ => none)
     fallbackImg 7 (RenderLightmap.new rect01 0 0 false) (by decide) (by decide)).1⟩

/-! ## Claim theorems: allocation chooses the lowest free slab (C1) -/

theorem slabAllocate_bits {m c : Nat} (h0 : m ≠ 0) (hcap : m < 2 ^ c)
    (hc32 : c ≤ 32) :
    Nat.testBit m (trailingZeros32 m) = true ∧
    (∀ j, j < trailingZeros32 m → Nat.testBit m j = false) ∧
    trailingZeros32 m < c ∧ trailingZeros32 m < 32 ∧
    (∀ j, Nat.testBit
        (m &&& (((1 <<< trailingZeros32 m) % u32Size) ^^^ (u32Size - 1))) j =
      (Nat.testBit m j && !(decide (j = trailingZeros32 m)))) := by
  have hm32 : m < u32Size := by
    unfold u32Size
    exact lt_of_lt_of_le hcap (Nat.pow_le_pow_right (by omega) hc32)
  have ht32 : trailingZeros32 m < 32 := trailingZeros32_lt h0 hm32
  have htb := trailingZeros32_testBit h0 hm32
  have htc : trailingZeros32 m < c := by
    by_contra hge
    have h1 := Nat.testBit_implies_ge htb
    have hle : 2 ^ c ≤ 2 ^ trailingZeros32 m :=
      Nat.pow_le_pow_right (by omega) (by omega)
    omega
  exact ⟨htb, fun j hj => trailingZeros32_least hj, htc, ht32,
    fun j => clearBit_testBit _ hm32 ht32 j⟩

theorem allocate_eq_of_mem (l : RenderLightmapsL) (u : RenderLightmapsU)
    (fb : GpuImage) (image_id : Nat) (si : Nat)
    (hm : fbsMinimum u.free_slabs = some si) :
    l.allocate u fb image_id =
      ({ l with slabs :=
          l.slabs.set si ((l.slabs.getD si default).allocate image_id).1 },
       (if ((l.slabs.getD si default).allocate image_id).1.is_full then
          { u with free_slabs := fbsRemove u.free_slabs si }
        else u),
       si, ((l.slabs.getD si default).allocate image_id).2) := by
  unfold RenderLightmapsL.allocate
  simp only [hm]

theorem allocate_eq_of_empty (l : RenderLightmapsL) (u : RenderLightmapsU)
    (fb : GpuImage) (image_id : Nat)
    (hm : fbsMinimum u.free_slabs = none) :
    l.allocate u fb image_id =
      ({ slabs :=
          ((l.slabs ++ [LightmapSlab.new fb u.bindless_supported]).set
            l.slabs.length
            (((l.slabs ++ [LightmapSlab.new fb u.bindless_supported]).getD
                l.slabs.length default).allocate image_id).1) },
       (if (((l.slabs ++ [LightmapSlab.new fb u.bindless_supported]).getD
              l.slabs.length default).allocate image_id).1.is_full then
          { u with free_slabs :=
              fbsRemove (fbsInsert u.free_slabs l.slabs.length) l.slabs.length }
        else { u with free_slabs := fbsInsert u.free_slabs l.slabs.length }),
       l.slabs.length,
       (((l.slabs ++ [LightmapSlab.new fb u.bindless_supported]).getD
           l.slabs.length default).allocate image_id).2) := by
  unfold RenderLightmapsL.allocate RenderLightmapsL.create_slab
  simp only [hm]

theorem getD_set_self (xs : List LightmapSlab) (i : Nat) (x : LightmapSlab)
    (h : i < xs.length) : (xs.set i x).getD i default = x := by
  simp [List.getD_eq_getElem?_getD, List.getElem?_set_self h]

theorem getD_concat_length (xs : List LightmapSlab) (x : LightmapSlab) :
    (xs ++ [x]).getD xs.length default = x := by
  simp [List.getD_eq_getElem?_getD, List.getElem?_concat_length]

/-- C1: `RenderLightmapsL::allocate` uses the lowest index in `free_slabs`
when the set is non-empty, and otherwise appends a new all-free slab and uses
its index; the returned slot is the lowest free bit of the chosen slab's
bitmask (`m0`), exactly that bit is cleared in the resulting bitmask (`m1`),
and the slab's bit is present in the resulting `free_slabs` iff the slab did
not become full, other bits unchanged.  Starting from the empty state in
bindless mode (capacity 4), five allocations yield addresses
(0,0)..(0,3),(1,0), create slab 1 for the fifth, and leave `free_slabs`={1}. -/
theorem c1_allocate_correct (l : RenderLightmapsL) (u : RenderLightmapsU)
    (fb : GpuImage) (image_id : Nat)
    (hrange : ∀ i, Nat.testBit u.free_slabs i = true → i < l.slabs.length)
    (hinv : ∀ i, i < l.slabs.length →
      ((l.slabs.getD i default).free_slots_bitmask <
          2 ^ (l.slabs.getD i default).lightmaps.length ∧
       (l.slabs.getD i default).lightmaps.length ≤ 32 ∧
       (Nat.testBit u.free_slabs i = true ↔
         (l.slabs.getD i default).free_slots_bitmask ≠ 0))) :
    (∀ r si ti m0 m1,
      r = l.allocate u fb image_id →
      si = r.2.2.1 → ti = r.2.2.2 →
      m0 = (if u.free_slabs = 0 then
              (1 <<< (if u.bindless_supported then LIGHTMAPS_PER_SLAB else 1)) - 1
            else (l.slabs.getD si default).free_slots_bitmask) →
      m1 = (r.1.slabs.getD si default).free_slots_bitmask →
      ((u.free_slabs ≠ 0 →
         Nat.testBit u.free_slabs si = true ∧
         ∀ j, j < si → Nat.testBit u.free_slabs j = false) ∧
       (u.free_slabs = 0 →
         si = l.slabs.length ∧ r.1.slabs.length = l.slabs.length + 1) ∧
       Nat.testBit m0 ti = true ∧
       (∀ j, j < ti → Nat.testBit m0 j = false) ∧
       (∀ j, Nat.testBit m1 j = (Nat.testBit m0 j && !(decide (j = ti)))) ∧
       (Nat.testBit r.2.1.free_slabs si = true ↔ m1 ≠ 0) ∧
       (∀ j, j ≠ si → Nat.testBit r.2.1.free_slabs j = Nat.testBit u.free_slabs j))) ∧
    (allocSeq 5 (emptyL, emptyU true)).2 = [(0, 0), (0, 1), (0, 2), (0, 3), (1, 0)] ∧
    (allocSeq 5 (emptyL, emptyU true)).1.2.free_slabs = 2 ∧
    (allocSeq 5 (emptyL, emptyU true)).1.1.slabs.length = 2 ∧
    ((allocSeq 5 (emptyL, emptyU true)).1.1.slabs.getD 0 default).free_slots_bitmask
      = 0 := by
  refine ⟨?_, by decide, by decide, by decide, by decide⟩
  intro r si ti m0 m1 hr hsi hti hm0 hm1
  by_cases hfs : u.free_slabs = 0
  · -- free_slabs empty: a fresh slab is appended and used
    have hm : fbsMinimum u.free_slabs = none := by simp [fbsMinimum, hfs]
    rw [allocate_eq_of_empty l u fb image_id hm] at hr
    have hsi' : si = l.slabs.length := by rw [hsi, hr]
    have hget :
        (l.slabs ++ [LightmapSlab.new fb u.bindless_supported]).getD
          l.slabs.length default = LightmapSlab.new fb u.bindless_supported :=
      getD_concat_length _ _
    -- facts about the fresh slab's bitmask
    have hm0' : m0 = (1 <<< (if u.bindless_supported then LIGHTMAPS_PER_SLAB
        else 1)) - 1 := by rw [hm0, if_pos hfs]
    have hm0new : m0 = (LightmapSlab.new fb u.bindless_supported).free_slots_bitmask := by
      rw [hm0']; rfl
    have hcnt : (LightmapSlab.new fb u.bindless_supported).lightmaps.length =
        if u.bindless_supported then LIGHTMAPS_PER_SLAB else 1 := by
      cases hb : u.bindless_supported <;> simp [LightmapSlab.new, hb]
    have hm0ne : m0 ≠ 0 := by
      rw [hm0']
      cases hb : u.bindless_supported <;> simp [hb, LIGHTMAPS_PER_SLAB]
    have hm0lt : m0 < 2 ^ (if u.bindless_supported then LIGHTMAPS_PER_SLAB else 1) := by
      rw [hm0']
      cases hb : u.bindless_supported <;> simp [hb, LIGHTMAPS_PER_SLAB]
    have hc32 : (if u.bindless_supported then LIGHTMAPS_PER_SLAB else 1) ≤ 32 := by
      cases hb : u.bindless_supported <;> simp [hb, LIGHTMAPS_PER_SLAB]
    obtain ⟨hb1, hb2, hb3, hb4, hb5⟩ := slabAllocate_bits hm0ne hm0lt hc32
    have hti' : ti = trailingZeros32 m0 := by
      rw [hti, hr]
      simp only [hget, hm0new]
      rfl
    have hsilen : l.slabs.length <
        ((l.slabs ++ [LightmapSlab.new fb u.bindless_supported])).length := by
      simp
    have hm1' : m1 = m0 &&&
        (((1 <<< trailingZeros32 m0) % u32Size) ^^^ (u32Size - 1)) := by
      rw [hm1, hr, hsi']
      simp only []
      rw [getD_set_self _ _ _ hsilen]
      rw [hget, hm0new]
      rfl
    refine ⟨fun h => absurd hfs h, fun _ => ⟨hsi', ?_⟩, ?_, ?_, ?_, ?_, ?_⟩
    · rw [hr]; simp
    · rw [hti']; exact hb1
    · intro j hj; rw [hti'] at hj; exact hb2 j hj
    · intro j; rw [hm1', hti']; exact hb5 j
    · -- the slab's bit is in the new free set iff the slab is not full
      rw [hr, hsi']
      by_cases hfull :
          (((l.slabs ++ [LightmapSlab.new fb u.bindless_supported]).getD
              l.slabs.length default).allocate image_id).1.is_full = true
      · have hm1z : m1 = 0 := by
          have := hfull
          unfold LightmapSlab.is_full at this
          rw [hm1, hr, hsi']
          simp only []
          rw [getD_set_self _ _ _ hsilen]
          simpa using this
        simp only [hfull, if_pos]
        rw [fbsRemove_testBit]
        simp [hm1z]
      · have hm1nz : m1 ≠ 0 := by
          unfold LightmapSlab.is_full at hfull
          rw [hm1, hr, hsi']
          simp only []
          rw [getD_set_self _ _ _ hsilen]
          simpa using hfull
        simp only [hfull, if_neg, Bool.not_eq_true]
        rw [fbsInsert_testBit]
        simp [hm1nz]
    · -- other slabs' bits unchanged
      intro j hj
      rw [hr]
      have hj' : j ≠ l.slabs.length := by rw [hsi'] at hj; exact hj
      by_cases hfull :
          (((l.slabs ++ [LightmapSlab.new fb u.bindless_supported]).getD
              l.slabs.length default).allocate image_id).1.is_full = true
      · simp only [hfull, if_pos]
        rw [fbsRemove_testBit, fbsInsert_testBit]
        simp [hj']
      · simp only [hfull, if_neg, Bool.not_eq_true]
        rw [fbsInsert_testBit]
        simp [hj']
  · -- free_slabs non-empty: its minimum slab is used
    have hm : fbsMinimum u.free_slabs = some (ctzAux u.free_slabs u.free_slabs) := by
      simp [fbsMinimum, hfs]
    rw [allocate_eq_of_mem l u fb image_id _ hm] at hr
    have hsi' : si = ctzAux u.free_slabs u.free_slabs := by rw [hsi, hr]
    have htbsi : Nat.testBit u.free_slabs si = true := by
      rw [hsi']
      exact ctzAux_testBit _ _ hfs (Nat.lt_two_pow _)
    have hleast : ∀ j, j < si → Nat.testBit u.free_slabs j = false := by
      intro j hj
      rw [hsi'] at hj
      exact ctzAux_least _ _ j hj
    have hsilen : si < l.slabs.length := hrange si htbsi
    obtain ⟨hcap, hc32, hiff⟩ := hinv si hsilen
    have hm0' : m0 = (l.slabs.getD si default).free_slots_bitmask := by
      rw [hm0, if_neg hfs]
    have hm0ne : m0 ≠ 0 := by rw [hm0']; exact hiff.mp htbsi
    have hm0lt : m0 < 2 ^ (l.slabs.getD si default).lightmaps.length := by
      rw [hm0']; exact hcap
    obtain ⟨hb1, hb2, hb3, hb4, hb5⟩ := slabAllocate_bits hm0ne hm0lt hc32
    have hsieq : (ctzAux u.free_slabs u.free_slabs) = si := hsi'.symm
    have hti' : ti = trailingZeros32 m0 := by
      rw [hti, hr, hsieq, hm0']
      rfl
    have hm1' : m1 = m0 &&&
        (((1 <<< trailingZeros32 m0) % u32Size) ^^^ (u32Size - 1)) := by
      rw [hm1, hr, hsieq]
      simp only []
      rw [getD_set_self _ _ _ hsilen]
      rw [hm0']
      rfl
    refine ⟨fun _ => ⟨htbsi, hleast⟩, fun h => absurd h hfs, ?_, ?_, ?_, ?_, ?_⟩
    · rw [hti']; exact hb1
    · intro j hj; rw [hti'] at hj; exact hb2 j hj
    · intro j; rw [hm1', hti']; exact hb5 j
    · rw [hr, hsieq]
      by_cases hfull :
          ((l.slabs.getD si default).allocate image_id).1.is_full = true
      · have hm1z : m1 = 0 := by
          unfold LightmapSlab.is_full at hfull
          rw [hm1, hr, hsieq]
          simp only []
          rw [getD_set_self _ _ _ hsilen]
          simpa using hfull
        simp only [hfull, if_pos]
        rw [fbsRemove_testBit]
        simp [hm1z]
      · have hm1nz : m1 ≠ 0 := by
          unfold LightmapSlab.is_full at hfull
          rw [hm1, hr, hsieq]
          simp only []
          rw [getD_set_self _ _ _ hsilen]
          simpa using hfull
        simp only [hfull, if_neg, Bool.not_eq_true]
        simp [htbsi, hm1nz]
    · intro j hj
      rw [hr, hsieq]
      by_cases hfull :
          ((l.slabs.getD si default).allocate image_id).1.is_full = true
      · simp only [hfull, if_pos]
        rw [fbsRemove_testBit]
        simp [hj]
      · simp only [hfull, if_neg, Bool.not_eq_true]

theorem c1_allocate_correct_witness :
    (∀ i, Nat.testBit (emptyU true).free_slabs i = true → i < emptyL.slabs.length) ∧
    ((emptyL.allocate (emptyU true) fallbackImg 0).2.2.1 = emptyL.slabs.length ∧
     (emptyL.allocate (emptyU true) fallbackImg 0).1.slabs.length =
       emptyL.slabs.length + 1) := by
  have hrange : ∀ i, Nat.testBit (emptyU true).free_slabs i = true →
      i < emptyL.slabs.length := by
    intro i h
    simp [emptyU] at h
  have hinv : ∀ i, i < emptyL.slabs.length →
      ((emptyL.slabs.getD i default).free_slots_bitmask <
          2 ^ (emptyL.slabs.getD i default).lightmaps.length ∧
       (emptyL.slabs.getD i default).lightmaps.length ≤ 32 ∧
       (Nat.testBit (emptyU true).free_slabs i = true ↔
         (emptyL.slabs.getD i default).free_slots_bitmask ≠ 0)) := by
    intro i h
    simp [emptyL] at h
  refine ⟨hrange, ?_⟩
  have h := (c1_allocate_correct emptyL (emptyU true) fallbackImg 0 hrange hinv).1
    (emptyL.allocate (emptyU true) fallbackImg 0)
    (emptyL.allocate (emptyU true) fallbackImg 0).2.2.1
    (emptyL.allocate (emptyU true) fallbackImg 0).2.2.2
    15 14 rfl rfl rfl (by decide) (by decide)
  exact h.2.1 (by decide)

end Bevy
